import Mathlib

/-!
Shallow embedding of the point-accumulation and punishment-escalation engine
of pippin-mod.  The definitions below are translated from
`src/server/routes.ts` (the REST routes `/api/test/moderate`,
`/api/warnings/:id/ignore`, `/api/users/:userId/recalculate`,
`/api/users/:userId/reset-warnings`) and from the Discord `MessageCreate`
handler in `src/server/services/discord.ts`.  The database is modelled as
explicit lists of rows; timestamps are epoch milliseconds (`Int`); JS
numbers are modelled as `Int` (all arithmetic here is small-integer exact).
-/

namespace PippinMod

/-- The `type` column of a punishment rule: `"mute" | "ban"`. -/
inductive PunishmentType where
  | mute
  | ban
deriving DecidableEq

/-- Row of the `punishment_rules` table (fields read by the engine). -/
structure PunishmentRule where
  id : Nat
  type : PunishmentType
  pointThreshold : Int
  /-- `duration` is nullable; the code defaults it with `rule.duration || 60`. -/
  duration : Option Int
  isActive : Bool
deriving DecidableEq

/-- Row of the `warning_levels` table (fields read by the engine). -/
structure WarningLevel where
  id : Nat
  name : String
  points : Int
  deleteMessage : Bool
deriving DecidableEq

/-- Row of the `users` table. -/
structure User where
  id : String
  username : String
  totalPoints : Int
  isBanned : Bool
  isMuted : Bool
  muteExpiresAt : Option Int
deriving DecidableEq

/-- Row of the `warnings` table.  The message-context array is omitted
(it is written as `[]` and never read by the engine). -/
structure Warning where
  id : Nat
  userId : String
  levelId : Nat
  points : Int
  ruleTriggered : String
  messageContent : String
  messageDeleted : Bool
  messageIgnored : Bool
  ignoredAt : Option Int
  ignoredBy : Option String
  ignoreReason : Option String
deriving DecidableEq

/-- Row of the `punishments` audit table. -/
structure Punishment where
  userId : String
  type : PunishmentType
  reason : String
  duration : Option Int
  expiresAt : Option Int
deriving DecidableEq

/-- The relational state acted on by the engine. -/
structure DB where
  users : List User
  warnings : List Warning
  punishments : List Punishment
  warningLevels : List WarningLevel
  punishmentRules : List PunishmentRule
  /-- fresh id for the next inserted warning row -/
  nextWarningId : Nat
deriving DecidableEq

/-- `total >= rule.pointThreshold`, the threshold test used by every loop. -/
def ruleMatches (total : Int) (r : PunishmentRule) : Bool :=
  decide (total ≥ r.pointThreshold)

/-- Whether a rule's `type` is `"ban"`. -/
def isBanRule (r : PunishmentRule) : Bool :=
  match r.type with
  | .ban => true
  | .mute => false

/-- Whether a rule's `type` is `"mute"`. -/
def isMuteRule (r : PunishmentRule) : Bool :=
  match r.type with
  | .ban => false
  | .mute => true

/-- Stable insertion into a list kept in descending `pointThreshold` order. -/
def insertRuleDesc (r : PunishmentRule) : List PunishmentRule → List PunishmentRule
  | [] => [r]
  | s :: rest =>
    if s.pointThreshold < r.pointThreshold then r :: s :: rest
    else s :: insertRuleDesc r rest

/-- Embedding of `orderBy desc(pointThreshold)`: a stable descending sort. -/
def sortRulesDesc : List PunishmentRule → List PunishmentRule
  | [] => []
  | r :: rest => insertRuleDesc r (sortRulesDesc rest)

/-- Embedding of the query
`findMany(where isActive = true, orderBy desc(pointThreshold))`
shared by all four punishment loops. -/
def DB.activeRulesSortedDesc (db : DB) : List PunishmentRule :=
  sortRulesDesc (db.punishmentRules.filter (fun r => r.isActive))

/-- `db.query.users.findFirst(where eq(users.id, uid))`. -/
def DB.findUser (db : DB) (uid : String) : Option User :=
  db.users.find? (fun u => u.id == uid)

/-- `db.query.warnings.findFirst(where eq(warnings.id, wid))`. -/
def DB.findWarning (db : DB) (wid : Nat) : Option Warning :=
  db.warnings.find? (fun w => w.id == wid)

/-- `db.update(users).set(...).where(eq(users.id, uid))`. -/
def updateUser (db : DB) (uid : String) (f : User → User) : DB :=
  { db with users := db.users.map (fun u => if u.id == uid then f u else u) }

/-- Sum of `points` over a user's warnings where `messageIgnored = false`
(the spec's ledger sum; same fold as the recalculate route's `reduce`). -/
def activeWarningSum (db : DB) (uid : String) : Int :=
  (db.warnings.filter (fun w => w.userId == uid && !w.messageIgnored)).foldl
    (fun s w => s + w.points) 0

/-- The punishment loop of `POST /api/test/moderate` (routes.ts:562-599),
reduced to the rule it applies: walk the (descending-sorted) rules; on the
first rule whose threshold is met, a `ban` rule always applies and breaks;
a `mute` rule applies and breaks only when the user (as fetched at the start
of the request) is not already muted, otherwise the walk continues. -/
def moderateDecide (total : Int) (isMuted : Bool) : List PunishmentRule → Option PunishmentRule
  | [] => none
  | r :: rest =>
    if ruleMatches total r then
      match r.type with
      | .ban => some r
      | .mute => if !isMuted then some r else moderateDecide total isMuted rest
    else moderateDecide total isMuted rest

/-- The punishment-removal loop of `POST /api/warnings/:id/ignore`
(routes.ts:708-723).  State is `(shouldRemoveBan, shouldRemoveMute)`,
initialised to `(user.isBanned, user.isMuted)`; the first rule whose
threshold is met cancels the removal of its own type and breaks. -/
def removalScan (total : Int) : List PunishmentRule → Bool × Bool → Bool × Bool
  | [], st => st
  | r :: rest, (rb, rm) =>
    if ruleMatches total r then
      match r.type with
      | .ban => (false, rm)
      | .mute => (rb, false)
    else removalScan total rest (rb, rm)

/-- Accumulator of the recalculate route's punishment loop. -/
structure RecalcState where
  shouldBeBanned : Bool
  shouldBeMuted : Bool
  muteExpiresAt : Option Int
deriving DecidableEq

/-- The punishment loop of `POST /api/users/:userId/recalculate`
(routes.ts:1066-1076): a matching `ban` rule sets `shouldBeBanned` and
breaks; a matching `mute` rule sets `shouldBeMuted`, overwrites
`muteExpiresAt` with `now + (duration || 60) * 60 * 1000`, and continues. -/
def recalcScan (total nowMs : Int) : List PunishmentRule → RecalcState → RecalcState
  | [], st => st
  | r :: rest, st =>
    if ruleMatches total r then
      match r.type with
      | .ban => { st with shouldBeBanned := true }
      | .mute =>
        recalcScan total nowMs rest
          { st with
            shouldBeMuted := true
            muteExpiresAt := some (nowMs + (r.duration.getD 60) * 60 * 1000) }
    else recalcScan total nowMs rest st

/-- The punishment loop of the Discord `MessageCreate` handler
(discord.ts:613-654).  `exec` models `safeApplyPunishment` (the platform
mute/ban call), taking the rule's type and duration and reporting success.
On success a `punishments` audit row is inserted and the loop breaks; on
failure the loop logs and continues with the next (lower-threshold) rule.
The users table is not touched by this loop. -/
def discordScan (exec : PunishmentType → Option Int → Bool) (uid : String) (nowMs total : Int) :
    List PunishmentRule → Option PunishmentType × List Punishment
  | [] => (none, [])
  | r :: rest =>
    if ruleMatches total r then
      if exec r.type r.duration then
        (some r.type,
          [{ userId := uid
             type := r.type
             reason := "Accumulated warning points"
             duration := if isMuteRule r then r.duration else none
             expiresAt := if isMuteRule r then some (nowMs + (r.duration.getD 60) * 60 * 1000) else none }])
      else discordScan exec uid nowMs total rest
    else discordScan exec uid nowMs total rest

/-- Modelled from the spec: the verdict returned by `analyzeMessage`
(`src/server/services/moderation.ts` is not among the sources).  Per §6 the
classifier returns a level-name string (`"none"` for no violation), the
description of the rule triggered, and the level's message-deletion flag;
it receives no user id and performs no ledger writes. -/
structure Verdict where
  warningLevel : String
  ruleTriggered : String
  deleteMessage : Bool
deriving DecidableEq

/-- Response of `POST /api/test/moderate` (status/body cases). -/
inductive ModerateOutcome where
  | missingFields
  | noViolation
  | levelNotFound
  | applied (level : WarningLevel) (newTotal : Int) (punishment : Option PunishmentType)
deriving DecidableEq

/-- Get-or-create of the `users` row (routes.ts:514-531, discord.ts:567-587):
a missing user is inserted with `totalPoints = 0` (schema defaults for the
status flags) and the fetched row is returned. -/
def getOrCreateUser (db : DB) (uid uname : String) : DB × User :=
  match db.findUser uid with
  | some u => (db, u)
  | none =>
    let u : User :=
      { id := uid, username := uname, totalPoints := 0
        isBanned := false, isMuted := false, muteExpiresAt := none }
    ({ db with users := db.users ++ [u] }, u)

/-- Effect part of the test-moderate punishment loop (routes.ts:560-599):
apply the rule chosen by `moderateDecide` — a `ban` sets `isBanned` and
appends a permanent-ban audit row; a `mute` sets `isMuted`/`muteExpiresAt`
and appends a mute audit row with `duration || 60` minutes. -/
def applyModeratePunishment (db : DB) (nowMs : Int) (uid : String) (isMutedAtFetch : Bool)
    (newTotal : Int) : DB × Option PunishmentType :=
  match moderateDecide newTotal isMutedAtFetch db.activeRulesSortedDesc with
  | none => (db, none)
  | some r =>
    match r.type with
    | .ban =>
      let db1 := updateUser db uid (fun u => { u with isBanned := true })
      ({ db1 with
          punishments := db1.punishments ++
            [{ userId := uid, type := .ban, reason := "Exceeded maximum warning points"
               duration := none, expiresAt := none }] },
        some .ban)
    | .mute =>
      let expiresAt := nowMs + (r.duration.getD 60) * 60 * 1000
      let db1 := updateUser db uid
        (fun u => { u with isMuted := true, muteExpiresAt := some expiresAt })
      ({ db1 with
          punishments := db1.punishments ++
            [{ userId := uid, type := .mute, reason := "Accumulated warning points"
               duration := some (r.duration.getD 60), expiresAt := some expiresAt }] },
        some .mute)

/-- Embedding of `POST /api/test/moderate` (routes.ts:484-611): classify
(the verdict is an input here), resolve the level by exact name, get or
create the user, insert the warning row with the level's current points,
add the points to `totalPoints`, then run the punishment loop. -/
def testModerate (db : DB) (nowMs : Int) (verdict : Verdict)
    (userId username content : String) : DB × ModerateOutcome :=
  if content == "" || userId == "" || username == "" then (db, .missingFields)
  else if verdict.warningLevel == "none" then (db, .noViolation)
  else
    match db.warningLevels.find? (fun l => l.name == verdict.warningLevel) with
    | none => (db, .levelNotFound)
    | some lvl =>
      let (db1, user) := getOrCreateUser db userId username
      let w : Warning :=
        { id := db1.nextWarningId, userId := userId, levelId := lvl.id
          points := lvl.points, ruleTriggered := verdict.ruleTriggered
          messageContent := content, messageDeleted := verdict.deleteMessage
          messageIgnored := false, ignoredAt := none, ignoredBy := none, ignoreReason := none }
      let db2 := { db1 with warnings := db1.warnings ++ [w], nextWarningId := db1.nextWarningId + 1 }
      let newTotal := user.totalPoints + lvl.points
      let db3 := updateUser db2 userId (fun u => { u with totalPoints := newTotal })
      let (db4, applied) := applyModeratePunishment db3 nowMs userId user.isMuted newTotal
      (db4, .applied lvl newTotal applied)

/-- Embedding of `POST /api/warnings/:id/ignore` (routes.ts:657-776).
There is no already-ignored check: any found warning is (re-)marked
ignored and its points are subtracted from the fetched `totalPoints`;
then the removal loop decides which status flags to clear. -/
def ignoreWarning (db : DB) (nowMs : Int) (warningId : Nat)
    (reviewerId reason : String) : Except String DB :=
  if reviewerId == "" || reason == "" then .error "Missing required fields"
  else
    match db.findWarning warningId with
    | none => .error "Warning not found"
    | some w =>
      match db.findUser w.userId with
      | none => .error "User not found"
      | some user =>
        let db1 := { db with
          warnings := db.warnings.map (fun w2 =>
            if w2.id == warningId then
              { w2 with messageIgnored := true, ignoredAt := some nowMs
                        ignoredBy := some reviewerId, ignoreReason := some reason }
            else w2) }
        let newTotal := user.totalPoints - w.points
        let db2 := updateUser db1 user.id (fun u => { u with totalPoints := newTotal })
        let (shouldRemoveBan, shouldRemoveMute) :=
          removalScan newTotal db2.activeRulesSortedDesc (user.isBanned, user.isMuted)
        let db3 :=
          if shouldRemoveBan || shouldRemoveMute then
            updateUser db2 user.id (fun u =>
              { u with
                isBanned := if shouldRemoveBan then false else user.isBanned
                isMuted := if shouldRemoveMute then false else user.isMuted
                muteExpiresAt := if shouldRemoveMute then none else user.muteExpiresAt })
          else db2
        .ok db3

/-- Embedding of `POST /api/users/:userId/recalculate` (routes.ts:1030-1094):
rebuild `totalPoints` from the non-ignored warnings, run the recalc loop
from a blank state, and overwrite the user's total and status flags. -/
def recalculateUser (db : DB) (nowMs : Int) (userId : String) : Except String DB :=
  match db.findUser userId with
  | none => .error "User not found"
  | some _ =>
    let userWarnings := db.warnings.filter (fun w => w.userId == userId && !w.messageIgnored)
    let newTotal := userWarnings.foldl (fun s w => s + w.points) 0
    let st := recalcScan newTotal nowMs db.activeRulesSortedDesc
      { shouldBeBanned := false, shouldBeMuted := false, muteExpiresAt := none }
    .ok (updateUser db userId (fun u =>
      { u with
        totalPoints := newTotal
        isBanned := st.shouldBeBanned
        isMuted := st.shouldBeMuted
        muteExpiresAt := if st.shouldBeMuted then st.muteExpiresAt else none }))

/-- Embedding of `POST /api/users/:userId/reset-warnings`
(routes.ts:1097-1135).  The warning update's only `where` clause is the
user id, so every warning of the user — already ignored or not — gets the
system ignore sub-record; then the user row is zeroed. -/
def resetWarnings (db : DB) (nowMs : Int) (userId : String) : Except String DB :=
  match db.findUser userId with
  | none => .error "User not found"
  | some _ =>
    let db1 := { db with
      warnings := db.warnings.map (fun w =>
        if w.userId == userId then
          { w with messageIgnored := true, ignoredAt := some nowMs
                   ignoredBy := some "system", ignoreReason := some "Reset for testing purposes" }
        else w) }
    .ok (updateUser db1 userId (fun u =>
      { u with totalPoints := 0, isBanned := false, isMuted := false, muteExpiresAt := none }))

/-- Embedding of the ledger-mutating tail of the Discord `MessageCreate`
handler (discord.ts:547-654), entered after a non-`"none"` verdict:
resolve the level by exact name (no-op and log when missing), get or
create the user, add the level's points to `totalPoints`, and run the
executor-gated punishment loop.  The handler inserts no `warnings` row and
never writes `isBanned`/`isMuted`; the returned option is
`appliedPunishment` (used only for the channel notification). -/
def discordRecordWarning (db : DB) (nowMs : Int) (exec : PunishmentType → Option Int → Bool)
    (verdict : Verdict) (authorId authorName : String) : DB × Option PunishmentType :=
  if verdict.warningLevel == "none" then (db, none)
  else
    match db.warningLevels.find? (fun l => l.name == verdict.warningLevel) with
    | none => (db, none)
    | some lvl =>
      let (db1, user) := getOrCreateUser db authorId authorName
      let newTotal := user.totalPoints + lvl.points
      let db2 := updateUser db1 authorId (fun u => { u with totalPoints := newTotal })
      let (applied, newPunishments) :=
        discordScan exec authorId nowMs newTotal db2.activeRulesSortedDesc
      ({ db2 with punishments := db2.punishments ++ newPunishments }, applied)

/-! Concrete fixtures used by the counterexamples and witnesses below. -/

/-- A 5-point warning level named `yellow`. -/
def levelYellow5 : WarningLevel := { id := 1, name := "yellow", points := 5, deleteMessage := false }

/-- Active mute rule at threshold 5, duration 60. -/
def muteRule5 : PunishmentRule :=
  { id := 1, type := .mute, pointThreshold := 5, duration := some 60, isActive := true }

/-- Active ban rule at threshold 10. -/
def banRule10 : PunishmentRule :=
  { id := 2, type := .ban, pointThreshold := 10, duration := none, isActive := true }

/-- Active ban rule at threshold 3. -/
def banRule3 : PunishmentRule :=
  { id := 3, type := .ban, pointThreshold := 3, duration := none, isActive := true }

/-- Active mute rule at threshold 3, duration 30. -/
def muteRule3 : PunishmentRule :=
  { id := 4, type := .mute, pointThreshold := 3, duration := some 30, isActive := true }

/-- A classifier verdict naming the `yellow` level. -/
def vYellow : Verdict := { warningLevel := "yellow", ruleTriggered := "no spam", deleteMessage := false }

/-- Fresh state: one warning level, no users, no rules. -/
def dbC1 : DB :=
  { users := [], warnings := [], punishments := []
    warningLevels := [levelYellow5], punishmentRules := [], nextWarningId := 1 }

/-- A warning that is already ignored, attributed to reviewer `mod1`. -/
def wIgnored : Warning :=
  { id := 1, userId := "u1", levelId := 1, points := 5, ruleTriggered := "no spam"
    messageContent := "hi", messageDeleted := false, messageIgnored := true
    ignoredAt := some 50, ignoredBy := some "mod1", ignoreReason := some "first review" }

/-- State after a first successful ignore: the warning is ignored and the
user's total is already down to the true sum 0. -/
def dbC2 : DB :=
  { users := [{ id := "u1", username := "bob", totalPoints := 0
                isBanned := false, isMuted := false, muteExpiresAt := none }]
    warnings := [wIgnored], punishments := []
    warningLevels := [levelYellow5], punishmentRules := [], nextWarningId := 2 }

/-- A non-ignored warning of `w.points` points for user `u1`. -/
def activeWarning (wid : Nat) (pts : Int) : Warning :=
  { id := wid, userId := "u1", levelId := 1, points := pts, ruleTriggered := "r"
    messageContent := "m", messageDeleted := false, messageIgnored := false
    ignoredAt := none, ignoredBy := none, ignoreReason := none }

/-- User at 10 non-ignored points; active rules `ban@10` and `mute@5`. -/
def dbC4 : DB :=
  { users := [{ id := "u1", username := "bob", totalPoints := 10
                isBanned := false, isMuted := false, muteExpiresAt := none }]
    warnings := [activeWarning 1 10], punishments := []
    warningLevels := [levelYellow5]
    punishmentRules := [banRule10, muteRule5], nextWarningId := 2 }

/-- Muted user at 8 non-ignored points; the mute rule deactivated, only
`ban@10` active (the spec's recalculation scenario). -/
def dbC4s : DB :=
  { users := [{ id := "u1", username := "bob", totalPoints := 8
                isBanned := false, isMuted := true, muteExpiresAt := some 777 }]
    warnings := [activeWarning 1 8], punishments := []
    warningLevels := [levelYellow5]
    punishmentRules := [{ muteRule5 with isActive := false }, banRule10], nextWarningId := 2 }

/-- Banned and muted user at 15 points with one 5-point non-ignored
warning; active rules `ban@10` and `mute@5`. -/
def dbC5 : DB :=
  { users := [{ id := "u1", username := "bob", totalPoints := 15
                isBanned := true, isMuted := true, muteExpiresAt := some 500 }]
    warnings := [activeWarning 1 5], punishments := []
    warningLevels := [levelYellow5]
    punishmentRules := [banRule10, muteRule5], nextWarningId := 2 }

/-- Banned (not muted) user at 10 points with one 5-point non-ignored
warning; active rules `ban@10` and `mute@5` (the spec's reversal case). -/
def dbC5b : DB :=
  { users := [{ id := "u1", username := "bob", totalPoints := 10
                isBanned := true, isMuted := false, muteExpiresAt := none }]
    warnings := [activeWarning 1 5], punishments := []
    warningLevels := [levelYellow5]
    punishmentRules := [banRule10, muteRule5], nextWarningId := 2 }

/-- User at 5 points about to cross the `ban@10` threshold with a `yellow`
warning in the Discord path. -/
def dbC7 : DB :=
  { users := [{ id := "u1", username := "bob", totalPoints := 5
                isBanned := false, isMuted := false, muteExpiresAt := none }]
    warnings := [], punishments := [], warningLevels := [levelYellow5]
    punishmentRules := [banRule10], nextWarningId := 1 }

/-- User with one warning already ignored by reviewer `mod1` and one
non-ignored warning. -/
def dbC9 : DB :=
  { users := [{ id := "u1", username := "carol", totalPoints := 5
                isBanned := false, isMuted := false, muteExpiresAt := none }]
    warnings := [wIgnored, activeWarning 2 5], punishments := []
    warningLevels := [levelYellow5], punishmentRules := [], nextWarningId := 3 }

/-! Helper lemmas about the four punishment loops. -/

/-- For a user who is not already muted, the test-moderate loop applies
exactly the first rule in the list whose threshold is met. -/
theorem moderateDecide_false_eq_find (total : Int) :
    ∀ rs : List PunishmentRule, moderateDecide total false rs = rs.find? (ruleMatches total)
  | [] => rfl
  | r :: rest => by
    by_cases h : ruleMatches total r
    · cases htype : r.type <;> simp [moderateDecide, List.find?, h, htype]
    · simp [moderateDecide, List.find?, h, moderateDecide_false_eq_find total rest]

/-- A matching ban rule at the head of the list is applied immediately,
whatever follows and whatever the mute state. -/
theorem moderateDecide_cons_ban (total : Int) (m : Bool) (r : PunishmentRule)
    (rest : List PunishmentRule) (hban : isBanRule r = true)
    (hmatch : ruleMatches total r = true) :
    moderateDecide total m (r :: rest) = some r := by
  have htype : r.type = .ban := by
    cases h : r.type <;> simp [isBanRule, h] at hban ⊢
  simp [moderateDecide, hmatch, htype]

/-- The removal loop of the ignore route keeps exactly the flag whose type
matches the first rule whose threshold is met; everything else is returned
unchanged (and later rules are never consulted). -/
theorem removalScan_eq_find (total : Int) :
    ∀ (rs : List PunishmentRule) (rb rm : Bool),
      removalScan total rs (rb, rm) =
        match rs.find? (ruleMatches total) with
        | none => (rb, rm)
        | some r => if isBanRule r then (false, rm) else (rb, false)
  | [], _, _ => rfl
  | r :: rest, rb, rm => by
    by_cases h : ruleMatches total r
    · cases htype : r.type <;> simp [removalScan, List.find?, h, htype, isBanRule]
    · simp [removalScan, List.find?, h, removalScan_eq_find total rest rb rm]

/-- The recalculate loop reports a ban exactly when some rule in the list
is a ban rule whose threshold is met. -/
theorem recalcScan_shouldBeBanned (total nowMs : Int) :
    ∀ (rs : List PunishmentRule) (st : RecalcState),
      (recalcScan total nowMs rs st).shouldBeBanned =
        (st.shouldBeBanned || rs.any (fun r => isBanRule r && ruleMatches total r))
  | [], st => by simp [recalcScan]
  | r :: rest, st => by
    by_cases h : ruleMatches total r
    · cases htype : r.type <;>
        simp [recalcScan, h, htype, isBanRule, recalcScan_shouldBeBanned total nowMs rest]
    · simp [recalcScan, h, recalcScan_shouldBeBanned total nowMs rest st]

/-- The recalculate loop reports a mute exactly when some mute rule whose
threshold is met occurs before the first met ban rule (the ban `break`
cuts the scan short). -/
theorem recalcScan_shouldBeMuted (total nowMs : Int) :
    ∀ (rs : List PunishmentRule) (st : RecalcState),
      (recalcScan total nowMs rs st).shouldBeMuted =
        (st.shouldBeMuted ||
          (rs.takeWhile (fun r => !(isBanRule r && ruleMatches total r))).any
            (fun r => isMuteRule r && ruleMatches total r))
  | [], st => by simp [recalcScan]
  | r :: rest, st => by
    by_cases h : ruleMatches total r
    · cases htype : r.type <;>
        simp [recalcScan, h, htype, isBanRule, isMuteRule, List.takeWhile,
          recalcScan_shouldBeMuted total nowMs rest]
    · cases htype : r.type <;>
        simp [recalcScan, h, htype, isBanRule, isMuteRule, List.takeWhile,
          recalcScan_shouldBeMuted total nowMs rest st]

/-- The last element of a list satisfying `p`, if any (the value a
repeatedly-overwritten loop variable holds after the scan). -/
def lastMatch (p : PunishmentRule → Bool) : List PunishmentRule → Option PunishmentRule
  | [] => none
  | r :: rest =>
    match lastMatch p rest with
    | some s => some s
    | none => if p r then some r else none

theorem lastMatch_mem (p : PunishmentRule → Bool) :
    ∀ (rs : List PunishmentRule) (r : PunishmentRule),
      lastMatch p rs = some r → r ∈ rs ∧ p r = true
  | [], r => by simp [lastMatch]
  | a :: rest, r => by
    intro h
    cases hrest : lastMatch p rest with
    | some s =>
      rw [lastMatch, hrest] at h
      obtain ⟨hm, hp⟩ := lastMatch_mem p rest r (by rw [hrest, ← h])
      exact ⟨List.mem_cons_of_mem a hm, hp⟩
    | none =>
      rw [lastMatch, hrest] at h
      by_cases hp : p a
      · simp [hp] at h
        exact ⟨by rw [← h]; exact List.mem_cons_self a rest, by rw [← h]; exact hp⟩
      · simp [hp] at h
  termination_by rs => rs.length

theorem lastMatch_eq_none (p : PunishmentRule → Bool) :
    ∀ rs : List PunishmentRule, lastMatch p rs = none → ∀ r ∈ rs, p r = false
  | [], _, r, hr => by simp at hr
  | a :: rest, h, r, hr => by
    cases hrest : lastMatch p rest with
    | some s => rw [lastMatch, hrest] at h; exact absurd h (by simp)
    | none =>
      rw [lastMatch, hrest] at h
      rcases List.mem_cons.mp hr with rfl | hmem
      · by_cases hp : p r
        · simp [hp] at h
        · exact Bool.eq_false_iff.mpr hp
      · exact lastMatch_eq_none p rest hrest r hmem

/-- In a list sorted by descending threshold, the last element satisfying
`p` has the smallest threshold among all elements satisfying `p`. -/
theorem lastMatch_min_of_sorted (p : PunishmentRule → Bool) :
    ∀ (rs : List PunishmentRule),
      rs.Pairwise (fun a b => b.pointThreshold ≤ a.pointThreshold) →
      ∀ (r0 : PunishmentRule), lastMatch p rs = some r0 →
      ∀ r ∈ rs, p r = true → r0.pointThreshold ≤ r.pointThreshold := by
  intro rs
  induction rs with
  | nil => intro _ r0 h; simp [lastMatch] at h
  | cons a rest ih =>
    intro hsorted r0 h r hr hp
    obtain ⟨hrel, hrest_sorted⟩ := List.pairwise_cons.mp hsorted
    cases hrest : lastMatch p rest with
    | some s =>
      rw [lastMatch, hrest] at h
      simp only [Option.some.injEq] at h
      subst h
      rcases List.mem_cons.mp hr with rfl | hmem
      · exact hrel s (lastMatch_mem p rest s hrest).1
      · exact ih hrest_sorted s hrest r hmem hp
    | none =>
      rw [lastMatch, hrest] at h
      by_cases hpa : p a
      · simp only [hpa, if_true, Option.some.injEq] at h
        subst h
        rcases List.mem_cons.mp hr with rfl | hmem
        · exact le_refl _
        · exact absurd hp (by rw [lastMatch_eq_none p rest hrest r hmem]; simp)
      · simp [hpa] at h

/-- When no ban rule in the list has its threshold met, the recalculate
loop never breaks, and `muteExpiresAt` ends up as the expiry computed from
the last matching mute rule of the scan (or the initial value if none). -/
theorem recalcScan_muteExpiresAt_of_no_ban (total nowMs : Int) :
    ∀ (rs : List PunishmentRule) (st : RecalcState),
      (∀ r ∈ rs, isBanRule r = true → ruleMatches total r = false) →
      (recalcScan total nowMs rs st).muteExpiresAt =
        match lastMatch (fun r => isMuteRule r && ruleMatches total r) rs with
        | some r => some (nowMs + (r.duration.getD 60) * 60 * 1000)
        | none => st.muteExpiresAt
  | [], st, _ => by simp [recalcScan, lastMatch]
  | r :: rest, st, hnb => by
    have hnb_rest : ∀ s ∈ rest, isBanRule s = true → ruleMatches total s = false :=
      fun s hs => hnb s (List.mem_cons_of_mem r hs)
    have IH : ∀ st' : RecalcState,
        (recalcScan total nowMs rest st').muteExpiresAt =
          match lastMatch (fun s => isMuteRule s && ruleMatches total s) rest with
          | some s => some (nowMs + (s.duration.getD 60) * 60 * 1000)
          | none => st'.muteExpiresAt :=
      fun st' => recalcScan_muteExpiresAt_of_no_ban total nowMs rest st' hnb_rest
    by_cases h : ruleMatches total r
    · cases htype : r.type with
      | ban =>
        exact absurd h (by
          rw [hnb r (List.mem_cons_self r rest) (by simp [isBanRule, htype])]; simp)
      | mute =>
        cases hrest : lastMatch (fun s => isMuteRule s && ruleMatches total s) rest with
        | some s => simp [recalcScan, h, htype, lastMatch, hrest, IH]
        | none =>
          have hmr : isMuteRule r = true := by simp [isMuteRule, htype]
          simp [recalcScan, h, htype, lastMatch, hrest, hmr, IH]
    · cases hrest : lastMatch (fun s => isMuteRule s && ruleMatches total s) rest with
      | some s => simp [recalcScan, h, lastMatch, hrest, IH]
      | none => simp [recalcScan, h, lastMatch, hrest, IH]

/-! Claim theorems. -/

/-- Claim C1 (code bug): the invariant `totalPoints = sum of points of the
user's non-ignored warnings` is broken by the Discord-path recordWarning
itself.  On a fresh state with a 5-point `yellow` level, processing one
flagged message sets the author's `totalPoints` to 5 while inserting no
warning row, so the ledger sum stays 0. -/
theorem c1_discord_point_update_without_ledger_row :
    ((discordRecordWarning dbC1 0 (fun _ _ => true) vYellow "u1" "alice").1.findUser "u1").map
        (fun u => u.totalPoints) = some 5
    ∧ activeWarningSum (discordRecordWarning dbC1 0 (fun _ _ => true) vYellow "u1" "alice").1 "u1" = 0
    ∧ (5 : Int) ≠ 0 := by
  refine ⟨rfl, rfl, by decide⟩

/-- Claim C2 (code bug): the ignore route rejects a nonexistent warning
id, but has no already-ignored check: re-ignoring the already-ignored
warning 1 succeeds, overwrites the ignore sub-record (`mod1` → `mod2`),
and subtracts the points again, driving `totalPoints` from the correct 0
down to -5. -/
theorem c2_reignore_not_rejected_double_subtracts :
    ignoreWarning dbC2 99 999 "mod2" "dup" = .error "Warning not found"
    ∧ (dbC2.findWarning 1).map (fun w => (w.messageIgnored, w.ignoredBy)) =
        some (true, some "mod1")
    ∧ (dbC2.findUser "u1").map (fun u => u.totalPoints) = some 0
    ∧ activeWarningSum dbC2 "u1" = 0
    ∧ ((ignoreWarning dbC2 99 1 "mod2" "dup").toOption.bind (fun d => d.findWarning 1)).map
        (fun w => w.ignoredBy) = some (some "mod2")
    ∧ ((ignoreWarning dbC2 99 1 "mod2" "dup").toOption.bind (fun d => d.findUser "u1")).map
        (fun u => u.totalPoints) = some (-5) := by
  refine ⟨rfl, rfl, rfl, rfl, rfl, rfl⟩

/-- Claim C3 counterexample: with the descending-sorted active rules
`[mute@5, ban@3]` and total 5, the first rule whose threshold is met is
`mute@5`, but for a user who is already muted the loop skips it and
applies `ban@3` instead — the decision is not always the first met rule. -/
theorem c3_counterexample_already_muted_skips_first_matching_rule :
    moderateDecide 5 true [muteRule5, banRule3] = some banRule3
    ∧ List.find? (ruleMatches 5) [muteRule5, banRule3] = some muteRule5
    ∧ banRule3 ≠ muteRule5 := by
  refine ⟨rfl, rfl, by decide⟩

/-- Claim C3 (amended): provided the user is not already muted, the
test-moderate punishment decision takes exactly the first rule of the
descending-sorted active list whose threshold is `<=` the total; and with
active rules `mute@5` and `ban@10`, a total of 10 yields a ban whichever
order the two rules were inserted in (and whatever the mute state). -/
theorem c3_amended_decision_takes_first_matching_rule_when_not_muted :
    (∀ (total : Int) (rs : List PunishmentRule),
        moderateDecide total false rs = rs.find? (ruleMatches total))
    ∧ (∀ m : Bool,
        moderateDecide 10 m (sortRulesDesc [muteRule5, banRule10]) = some banRule10
        ∧ moderateDecide 10 m (sortRulesDesc [banRule10, muteRule5]) = some banRule10) := by
  refine ⟨fun total rs => moderateDecide_false_eq_find total rs, fun m => ?_⟩
  cases m <;> exact ⟨rfl, rfl⟩

/-- Claim C4 counterexample: recalculating a user whose non-ignored
warnings sum to 10 under active rules `ban@10` and `mute@5` leaves
`isMuted = false` even though the active mute rule's threshold 5 is met —
the ban `break` prevents the independent mute evaluation the claim
states. -/
theorem c4_counterexample_ban_break_skips_met_mute_rule :
    activeWarningSum dbC4 "u1" = 10
    ∧ muteRule5 ∈ dbC4.punishmentRules
    ∧ muteRule5.isActive = true
    ∧ ruleMatches 10 muteRule5 = true
    ∧ ((recalculateUser dbC4 0 "u1").toOption.bind (fun d => d.findUser "u1")).map
        (fun u => (u.isBanned, u.isMuted)) = some (true, false) := by
  refine ⟨rfl, by decide, rfl, rfl, rfl⟩

/-- Claim C4 (amended): after the recalculate loop, `shouldBeBanned` holds
exactly when some rule of the scanned list is a ban rule whose threshold
is met, but `shouldBeMuted` holds exactly when a met mute rule occurs
before the first met ban rule of the descending scan (the ban `break`
cuts the scan, so it is not an independent evaluation); the spec's
deactivated-mute scenario — a muted user at total 8 with only `ban@10`
active — does recalculate to `isMuted = false`. -/
theorem c4_amended_recalc_ban_exact_mute_cut_by_ban :
    (∀ (rs : List PunishmentRule) (total nowMs : Int),
        (recalcScan total nowMs rs
            { shouldBeBanned := false, shouldBeMuted := false, muteExpiresAt := none }).shouldBeBanned =
          rs.any (fun r => isBanRule r && ruleMatches total r))
    ∧ (∀ (rs : List PunishmentRule) (total nowMs : Int),
        (recalcScan total nowMs rs
            { shouldBeBanned := false, shouldBeMuted := false, muteExpiresAt := none }).shouldBeMuted =
          (rs.takeWhile (fun r => !(isBanRule r && ruleMatches total r))).any
            (fun r => isMuteRule r && ruleMatches total r))
    ∧ ((recalculateUser dbC4s 0 "u1").toOption.bind (fun d => d.findUser "u1")).map
        (fun u => (u.isMuted, u.isBanned, u.muteExpiresAt, u.totalPoints)) =
        some (false, false, none, 8) := by
  refine ⟨fun rs total nowMs => ?_, fun rs total nowMs => ?_, rfl⟩
  · rw [recalcScan_shouldBeBanned]; simp
  · rw [recalcScan_shouldBeMuted]; simp

/-- Claim C5 counterexample: a banned and muted user at 15 points has a
5-point warning ignored (new total 10) under active rules `ban@10` and
`mute@5`.  The mute threshold 5 is still met and `isMuted` is an active
status of the same type, yet the route clears `isMuted` (only the first
met rule's type — ban — is retained). -/
theorem c5_counterexample_mute_cleared_despite_met_mute_threshold :
    (dbC5.findUser "u1").map (fun u => (u.isBanned, u.isMuted)) = some (true, true)
    ∧ muteRule5 ∈ dbC5.punishmentRules
    ∧ muteRule5.isActive = true
    ∧ ruleMatches 10 muteRule5 = true
    ∧ ((ignoreWarning dbC5 99 1 "mod" "appeal").toOption.bind (fun d => d.findUser "u1")).map
        (fun u => (u.totalPoints, u.isBanned, u.isMuted, u.muteExpiresAt)) =
        some (10, true, false, none) := by
  refine ⟨rfl, by decide, rfl, rfl, rfl⟩

/-- Claim C5 (amended): after a successful ignore, a status flag survives
iff the first (highest-threshold) active rule whose threshold is met by
the new total is of that flag's type; the other flag is cleared, and with
no met rule both are cleared — so a still-met lower threshold of the same
type preserves a status only when it is the highest met rule.  The spec's
reversal case — banned at 10, a 5-point warning ignored, `mute@5` still
met — does end with `isBanned = false`. -/
theorem c5_amended_removal_keeps_only_first_matching_type :
    (∀ (total : Int) (rs : List PunishmentRule) (rb rm : Bool),
        removalScan total rs (rb, rm) =
          match rs.find? (ruleMatches total) with
          | none => (rb, rm)
          | some r => if isBanRule r then (false, rm) else (rb, false))
    ∧ ((ignoreWarning dbC5b 99 1 "mod" "appeal").toOption.bind (fun d => d.findUser "u1")).map
        (fun u => (u.totalPoints, u.isBanned, u.isMuted)) = some (5, false, false) := by
  exact ⟨fun total rs rb rm => removalScan_eq_find total rs rb rm, rfl⟩

/-- Claim C6: in the Discord recordWarning path the executor outcome
(success or failure of `safeApplyPunishment`) influences neither the users
table nor the warnings ledger — the point update made before the
punishment loop persists identically under any executor, and no warning
row is ever rolled back (the loop only appends `punishments` audit rows
and picks the notification text). -/
theorem c6_executor_outcome_does_not_affect_ledger :
    ∀ (db : DB) (nowMs : Int) (exec1 exec2 : PunishmentType → Option Int → Bool)
      (v : Verdict) (authorId authorName : String),
      (discordRecordWarning db nowMs exec1 v authorId authorName).1.users =
        (discordRecordWarning db nowMs exec2 v authorId authorName).1.users
      ∧ (discordRecordWarning db nowMs exec1 v authorId authorName).1.warnings = db.warnings := by
  intro db nowMs exec1 exec2 v aid aname
  unfold discordRecordWarning
  by_cases h1 : v.warningLevel == "none"
  · simp [h1]
  · cases h2 : db.warningLevels.find? (fun l => l.name == v.warningLevel) with
    | none => simp [h1, h2]
    | some lvl =>
      unfold getOrCreateUser
      cases h3 : db.findUser aid <;> simp [h1, h2, h3, updateUser]

/-- When the test-moderate loop has chosen a ban rule, the route sets the
user's `isBanned` flag and appends the permanent-ban audit row. -/
theorem applyModeratePunishment_of_ban (db : DB) (nowMs : Int) (uid : String) (m : Bool)
    (total : Int) (r : PunishmentRule)
    (hdec : moderateDecide total m db.activeRulesSortedDesc = some r)
    (hban : isBanRule r = true) :
    applyModeratePunishment db nowMs uid m total =
      ({ updateUser db uid (fun u => { u with isBanned := true }) with
          punishments := db.punishments ++
            [{ userId := uid, type := .ban, reason := "Exceeded maximum warning points"
               duration := none, expiresAt := none }] }, some .ban) := by
  have htype : r.type = .ban := by
    cases h : r.type <;> simp [isBanRule, h] at hban ⊢
  unfold applyModeratePunishment
  rw [hdec]
  simp [htype, updateUser]

/-- Claim C7 counterexample: in the Discord path, a met ban rule with a
*successful* platform ban appends the audit row and stops the scan, but
the user's `isBanned` flag is never written — it stays `false`. -/
theorem c7_counterexample_discord_ban_leaves_isBanned_false :
    (discordRecordWarning dbC7 0 (fun _ _ => true) vYellow "u1" "bob").2 = some .ban
    ∧ (discordRecordWarning dbC7 0 (fun _ _ => true) vYellow "u1" "bob").1.punishments =
        [{ userId := "u1", type := .ban, reason := "Accumulated warning points"
           duration := none, expiresAt := none }]
    ∧ ((discordRecordWarning dbC7 0 (fun _ _ => true) vYellow "u1" "bob").1.findUser "u1").map
        (fun u => u.isBanned) = some false := by
  refine ⟨rfl, rfl, rfl⟩

/-- Claim C7 (amended): in the test-moderate path the claim holds — a met
ban rule is applied immediately regardless of what rules follow (the scan
stops), the user's `isBanned` flag is set to `true`, and a ban Punishment
audit row is appended.  (In the Discord path, by contrast, a met ban rule
only appends the audit row and stops when the platform ban succeeds, the
`isBanned` flag is never written, and a failed execution lets the scan
continue to lower rules.) -/
theorem c7_amended_ban_branch_in_test_moderate :
    (∀ (total : Int) (m : Bool) (r : PunishmentRule) (rest : List PunishmentRule),
        isBanRule r = true → ruleMatches total r = true →
        moderateDecide total m (r :: rest) = some r)
    ∧ (∀ (db : DB) (nowMs : Int) (uid : String) (m : Bool) (total : Int) (r : PunishmentRule),
        moderateDecide total m db.activeRulesSortedDesc = some r →
        isBanRule r = true →
        applyModeratePunishment db nowMs uid m total =
          ({ updateUser db uid (fun u => { u with isBanned := true }) with
              punishments := db.punishments ++
                [{ userId := uid, type := .ban, reason := "Exceeded maximum warning points"
                   duration := none, expiresAt := none }] }, some .ban)) := by
  exact ⟨fun total m r rest hban hmatch => moderateDecide_cons_ban total m r rest hban hmatch,
    fun db nowMs uid m total r hdec hban =>
      applyModeratePunishment_of_ban db nowMs uid m total r hdec hban⟩

/-- Witness for C7 (amended) at concrete inputs: `ban@10` heads the list
at total 10 and is taken whatever follows; on `dbC7` the ban branch sets
`isBanned` and appends the audit row. -/
theorem c7_amended_ban_branch_witness :
    isBanRule banRule10 = true
    ∧ ruleMatches 10 banRule10 = true
    ∧ moderateDecide 10 true (banRule10 :: [muteRule5]) = some banRule10
    ∧ moderateDecide 10 false dbC7.activeRulesSortedDesc = some banRule10
    ∧ applyModeratePunishment dbC7 0 "u1" false 10 =
        ({ updateUser dbC7 "u1" (fun u => { u with isBanned := true }) with
            punishments := dbC7.punishments ++
              [{ userId := "u1", type := .ban, reason := "Exceeded maximum warning points"
                 duration := none, expiresAt := none }] }, some .ban) :=
  ⟨by decide, by decide,
    c7_amended_ban_branch_in_test_moderate.1 10 true banRule10 [muteRule5] (by decide) (by decide),
    by decide,
    c7_amended_ban_branch_in_test_moderate.2 dbC7 0 "u1" false 10 banRule10 (by decide) (by decide)⟩

/-- Character-wise lower-casing, used to state case-insensitive mismatch
(`String.toLower` stated element-wise so concrete instances evaluate). -/
def lowerStr (s : String) : String := String.mk (s.data.map Char.toLower)

/-- Claim C8: when the classifier's level name matches no configured
warning level even case-insensitively (so in particular not exactly —
both lookups compare names exactly), the test-moderate route answers the
level-not-found error and the Discord handler returns with no punishment,
and in both paths the state is completely unchanged: no warning, no point
update, no punishment. -/
theorem c8_unknown_level_name_is_noop :
    ∀ (db : DB) (nowMs : Int) (v : Verdict) (uid uname content : String)
      (exec : PunishmentType → Option Int → Bool) (aid aname : String),
      (∀ lvl ∈ db.warningLevels, lowerStr lvl.name ≠ lowerStr v.warningLevel) →
      v.warningLevel ≠ "none" →
      content ≠ "" → uid ≠ "" → uname ≠ "" →
      testModerate db nowMs v uid uname content = (db, .levelNotFound)
      ∧ discordRecordWarning db nowMs exec v aid aname = (db, none) := by
  intro db nowMs v uid uname content exec aid aname hmm hnone hc hu hn
  have hf : db.warningLevels.find? (fun l => l.name == v.warningLevel) = none := by
    rw [List.find?_eq_none]
    intro x hx
    simp only [beq_iff_eq]
    intro hxe
    exact hmm x hx (by rw [hxe])
  constructor
  · simp [testModerate, hf, hnone, hc, hu, hn]
  · simp [discordRecordWarning, hf, hnone]

/-- Witness for C8 at a concrete input: `dbC1` only configures `yellow`,
the verdict names `Red`, and both paths leave the state untouched. -/
theorem c8_unknown_level_name_witness :
    (∀ lvl ∈ dbC1.warningLevels,
        lowerStr lvl.name ≠ lowerStr (Verdict.mk "Red" "slur" true).warningLevel)
    ∧ testModerate dbC1 0 (Verdict.mk "Red" "slur" true) "u1" "alice" "hey" =
        (dbC1, .levelNotFound)
    ∧ discordRecordWarning dbC1 0 (fun _ _ => true) (Verdict.mk "Red" "slur" true) "u1" "alice" =
        (dbC1, none) :=
  ⟨by decide,
    (c8_unknown_level_name_is_noop dbC1 0 (Verdict.mk "Red" "slur" true) "u1" "alice" "hey"
      (fun _ _ => true) "u1" "alice" (by decide) (by decide) (by decide) (by decide) (by decide)).1,
    (c8_unknown_level_name_is_noop dbC1 0 (Verdict.mk "Red" "slur" true) "u1" "alice" "hey"
      (fun _ _ => true) "u1" "alice" (by decide) (by decide) (by decide) (by decide) (by decide)).2⟩

/-- Claim C9 counterexample: warning 1 of `dbC9` was ignored before the
reset by reviewer `mod1` at time 50 with reason `first review`; after
`resetWarnings` its ignore sub-record is overwritten with the system
attribution — the update's only filter is the user id. -/
theorem c9_counterexample_reset_overwrites_prior_ignore_subrecord :
    (dbC9.findWarning 1).map (fun w => (w.messageIgnored, w.ignoredAt, w.ignoredBy, w.ignoreReason)) =
      some (true, some 50, some "mod1", some "first review")
    ∧ ((resetWarnings dbC9 100 "u1").toOption.bind (fun d => d.findWarning 1)).map
        (fun w => (w.ignoredAt, w.ignoredBy, w.ignoreReason)) =
      some (some 100, some "system", some "Reset for testing purposes") := by
  refine ⟨rfl, rfl⟩

/-- Claim C9 (amended): `resetWarnings` marks *every* warning of the user
— the already-ignored ones included, overwriting their prior ignore
sub-records — as ignored with the system attribution, deletes no warning
row, leaves other users' warnings untouched, and zeroes the user's total
and status flags. -/
theorem c9_amended_reset_marks_all_and_zeroes :
    ∀ (db : DB) (nowMs : Int) (uid : String) (u : User),
      db.findUser uid = some u →
      ∃ db', resetWarnings db nowMs uid = .ok db'
        ∧ db'.warnings.length = db.warnings.length
        ∧ (∀ w ∈ db'.warnings, w.userId = uid →
             w.messageIgnored = true ∧ w.ignoredAt = some nowMs
             ∧ w.ignoredBy = some "system" ∧ w.ignoreReason = some "Reset for testing purposes")
        ∧ (∀ w ∈ db'.warnings, w.userId ≠ uid → w ∈ db.warnings)
        ∧ db'.findUser uid =
            some { u with totalPoints := 0, isBanned := false, isMuted := false, muteExpiresAt := none } := by
  intro db nowMs uid u hu
  have hrun : resetWarnings db nowMs uid =
      .ok (updateUser
        { db with warnings := db.warnings.map (fun w =>
            if w.userId == uid then
              { w with messageIgnored := true, ignoredAt := some nowMs
                       ignoredBy := some "system", ignoreReason := some "Reset for testing purposes" }
            else w) }
        uid (fun u0 =>
          { u0 with totalPoints := 0, isBanned := false, isMuted := false, muteExpiresAt := none })) := by
    unfold resetWarnings
    rw [hu]
  refine ⟨_, hrun, ?_, ?_, ?_, ?_⟩
  · simp [updateUser]
  · intro w hw hwid
    simp only [updateUser] at hw
    obtain ⟨w0, hw0, rfl⟩ := List.mem_map.mp hw
    by_cases h : w0.userId == uid
    · simp [h]
    · simp only [h, Bool.false_eq_true, if_false] at hwid ⊢
      exact absurd hwid (by simpa using h)
  · intro w hw hwid
    simp only [updateUser] at hw
    obtain ⟨w0, hw0, rfl⟩ := List.mem_map.mp hw
    by_cases h : w0.userId == uid
    · have heq : w0.userId = uid := by simpa using h
      exact absurd (by simp [heq]) hwid
    · simpa [h] using hw0
  · have hcomp : ((fun x : User => x.id == uid) ∘
        (fun u0 : User => if u0.id == uid then
          { u0 with totalPoints := 0, isBanned := false, isMuted := false, muteExpiresAt := none }
        else u0)) = fun u0 : User => u0.id == uid := by
      funext u0
      by_cases h : u0.id = uid <;> simp [h]
    have hid : (u.id == uid) = true := by
      have := List.find?_some hu
      simpa using this
    simp only [updateUser, DB.findUser, List.find?_map, hcomp]
    unfold DB.findUser at hu
    rw [hu]
    simp [hid]
    intro hne
    exact absurd (by simpa using hid) hne

/-- Witness for C9 (amended) on `dbC9` at time 100. -/
theorem c9_amended_reset_witness :
    dbC9.findUser "u1" = some { id := "u1", username := "carol", totalPoints := 5
                                isBanned := false, isMuted := false, muteExpiresAt := none }
    ∧ ∃ db', resetWarnings dbC9 100 "u1" = .ok db'
        ∧ db'.warnings.length = dbC9.warnings.length
        ∧ (∀ w ∈ db'.warnings, w.userId = "u1" →
             w.messageIgnored = true ∧ w.ignoredAt = some 100
             ∧ w.ignoredBy = some "system" ∧ w.ignoreReason = some "Reset for testing purposes")
        ∧ (∀ w ∈ db'.warnings, w.userId ≠ "u1" → w ∈ dbC9.warnings)
        ∧ db'.findUser "u1" =
            some { id := "u1", username := "carol", totalPoints := 0
                   isBanned := false, isMuted := false, muteExpiresAt := none } :=
  ⟨by decide,
    c9_amended_reset_marks_all_and_zeroes dbC9 100 "u1"
      { id := "u1", username := "carol", totalPoints := 5
        isBanned := false, isMuted := false, muteExpiresAt := none } (by decide)⟩

/-- Claim C10: in the recalculate scan over a descending-sorted rule list
in which no ban rule's threshold is met and every mute rule's threshold is
met, `muteExpiresAt` is computed from the duration of the last matching
mute rule encountered, and that rule's threshold is the lowest among the
mute rules — the lowest-threshold rule wins, not the highest. -/
theorem c10_mute_expiry_from_last_matching_mute_rule :
    ∀ (rs : List PunishmentRule) (total nowMs : Int) (r0 : PunishmentRule),
      rs.Pairwise (fun a b => b.pointThreshold ≤ a.pointThreshold) →
      (∀ r ∈ rs, isBanRule r = true → ruleMatches total r = false) →
      (∀ r ∈ rs, isMuteRule r = true → ruleMatches total r = true) →
      lastMatch (fun r => isMuteRule r && ruleMatches total r) rs = some r0 →
      (recalcScan total nowMs rs
          { shouldBeBanned := false, shouldBeMuted := false, muteExpiresAt := none }).muteExpiresAt =
        some (nowMs + (r0.duration.getD 60) * 60 * 1000)
      ∧ ∀ r ∈ rs, isMuteRule r = true → r0.pointThreshold ≤ r.pointThreshold := by
  intro rs total nowMs r0 hsorted hban hmute hlast
  constructor
  · rw [recalcScan_muteExpiresAt_of_no_ban total nowMs rs _ hban, hlast]
  · intro r hr hm
    exact lastMatch_min_of_sorted _ rs hsorted r0 hlast r hr (by simp [hm, hmute r hr hm])

/-- Witness for C10 on `[mute@5 (60), mute@3 (30)]` at total 10: the
expiry comes from the 30-minute duration of the threshold-3 rule. -/
theorem c10_mute_expiry_witness :
    [muteRule5, muteRule3].Pairwise (fun a b => b.pointThreshold ≤ a.pointThreshold)
    ∧ lastMatch (fun r => isMuteRule r && ruleMatches 10 r) [muteRule5, muteRule3] = some muteRule3
    ∧ (recalcScan 10 0 [muteRule5, muteRule3]
        { shouldBeBanned := false, shouldBeMuted := false, muteExpiresAt := none }).muteExpiresAt =
        some (0 + (muteRule3.duration.getD 60) * 60 * 1000)
    ∧ ∀ r ∈ [muteRule5, muteRule3], isMuteRule r = true →
        muteRule3.pointThreshold ≤ r.pointThreshold :=
  ⟨by decide, by decide,
    (c10_mute_expiry_from_last_matching_mute_rule [muteRule5, muteRule3] 10 0 muteRule3
      (by decide) (by decide) (by decide) (by decide)).1,
    (c10_mute_expiry_from_last_matching_mute_rule [muteRule5, muteRule3] 10 0 muteRule3
      (by decide) (by decide) (by decide) (by decide)).2⟩

end PippinMod
